import Mathlib

/-!
Verification of the regex infix→postfix→AST pipeline of the repository
Lab3Teoria, comprising the two Python modules `shunting_yard_regex.py` and
`shunting_yard_simp.py`.  Each Lean definition is a shallow embedding of the
corresponding Python function; the two modules share the tokenizer,
concatenation inserter, precedence table and tree builder verbatim, so those
are embedded once.  The two `shunting_yard` functions differ in exactly one
line (the operand test), so the common loop is embedded once and instantiated
with each module's operand test.
-/

/-- Models CPython's `str.isalnum` restricted to single characters, for the
character set this program manipulates: on ASCII it agrees with
`Char.isAlphanum`, and the Greek letter ε (the one non-ASCII character the
pipeline itself introduces, Unicode category Ll) is alphanumeric in Python:
`'ε'.isalnum() == True`. -/
def pyIsAlnum (c : Char) : Bool := c.isAlphanum || c = 'ε'

/-- Models Python's `token.startswith('\\')`: the first character is a
backslash. -/
def startsWithBackslash (t : String) : Bool :=
  match t.data with
  | c :: _ => c = '\\'
  | [] => false

/-- The tokenizer loop at the top of `insert_concatenation` (identical in both
modules): a backslash followed by another character is consumed as one
two-character token, otherwise one character is one token.  A trailing
backslash (no following character) falls into the one-character branch. -/
def tokenize : List Char → List String
  | [] => []
  | [c] => [String.mk [c]]
  | c :: d :: rest =>
    if c = '\\' then String.mk [c, d] :: tokenize rest
    else String.mk [c] :: tokenize (d :: rest)

/-- Concatenation of the character data of a token list, used to state that the
tokenizer drops no character. -/
def joinTokens : List String → List Char
  | [] => []
  | t :: ts => t.data ++ joinTokens ts

/-- The insertion loop of `insert_concatenation`: a `.` is inserted before
token `tok` when the previous token is neither `|` nor `(` and `tok` is none
of `|`, `)`, `*`, `+`, `?`.  `prev` is the token preceding the current list
head. -/
def insertDots (prev : String) : List String → List String
  | [] => []
  | tok :: rest =>
    if (prev ≠ "|" ∧ prev ≠ "(") ∧
       (tok ≠ "|" ∧ tok ≠ ")" ∧ tok ≠ "*" ∧ tok ≠ "+" ∧ tok ≠ "?") then
      "." :: tok :: insertDots tok rest
    else
      tok :: insertDots tok rest

/-- Embeds `insert_concatenation` (identical in both modules): tokenize, then insert
explicit `.` tokens; the first token never receives a `.` before it. -/
def insert_concatenation (expr : String) : List String :=
  match tokenize expr.data with
  | [] => []
  | t :: ts => t :: insertDots t ts

/-- Embeds `precedence` (identical in both modules): quantifiers 3, concatenation 2,
alternation 1, anything else (notably `(`) 0. -/
def precedence (op : String) : Nat :=
  if op = "*" ∨ op = "+" ∨ op = "?" then 3
  else if op = "." then 2
  else if op = "|" then 1
  else 0

/-- The operand test of `shunting_yard` in `shunting_yard_regex.py`:
`token.startswith('\\') or (len(token)==1 and (token.isalnum() or token in
['_','[',']','{','}']))`. -/
def is_operand_regex (token : String) : Bool :=
  startsWithBackslash token ||
    (match token.data with
     | [c] => pyIsAlnum c || c = '_' || c = '[' || c = ']' ||
              c = '\x7b' || c = '\x7d'
     | _ => false)

/-- The operand test of `shunting_yard` in `shunting_yard_simp.py`: the same
test with `'ε'` listed explicitly in the membership list. -/
def is_operand_simp (token : String) : Bool :=
  startsWithBackslash token ||
    (match token.data with
     | [c] => pyIsAlnum c || c = '_' || c = '[' || c = ']' ||
              c = '\x7b' || c = '\x7d' || c = 'ε'
     | _ => false)

/-- A trace record (`pasos` entry): action label, output snapshot, stack
snapshot (stack listed bottom first, as Python's `stack.copy()` does). -/
abbrev Paso := String × List String × List String

/-- The `)` handler of `shunting_yard`: pop and emit operators until a `(` is
found; pop and discard the `(`; if the stack empties first, log
"ignore unmatched )".  The operator stack is represented head-first (head is
the top), so trace snapshots reverse it. -/
def popForParen (out st : List String) (pasos : List Paso) :
    List String × List String × List Paso :=
  match st with
  | [] => (out, [], pasos ++ [("ignore unmatched )", out, [])])
  | top :: rest =>
    if top = "(" then
      (out, rest, pasos ++ [("pop (", out, rest.reverse)])
    else
      popForParen (out ++ [top]) rest
        (pasos ++ [("pop for )", out ++ [top], rest.reverse)])

/-- The operator handler's pop loop of `shunting_yard`: while the stack is
nonempty and the top's precedence is at least the incoming token's, stop at a
`(`, otherwise pop the top to the output. -/
def popOperators (tokPrec : Nat) (out st : List String) (pasos : List Paso) :
    List String × List String × List Paso :=
  match st with
  | [] => (out, [], pasos)
  | top :: rest =>
    if precedence top ≥ tokPrec then
      if top = "(" then (out, top :: rest, pasos)
      else
        popOperators tokPrec (out ++ [top]) rest
          (pasos ++ [("pop op " ++ top, out ++ [top], rest.reverse)])
    else (out, top :: rest, pasos)

/-- The final loop of `shunting_yard`: pop every remaining stack entry —
including any unmatched `(` — and append it to the output. -/
def popEnd (out st : List String) (pasos : List Paso) :
    List String × List Paso :=
  match st with
  | [] => (out, pasos)
  | top :: rest =>
    popEnd (out ++ [top]) rest
      (pasos ++ [("pop end " ++ top, out ++ [top], rest.reverse)])

/-- One iteration of the `shunting_yard` token loop, parameterized by the
operand test (the only line on which the two modules differ). -/
def syStep (isOp : String → Bool) (acc : List String × List String × List Paso)
    (token : String) : List String × List String × List Paso :=
  let out := acc.1
  let st := acc.2.1
  let pasos := acc.2.2
  if isOp token then
    (out ++ [token], st, pasos ++ [("operand " ++ token, out ++ [token], st.reverse)])
  else if token = "(" then
    (out, token :: st, pasos ++ [("push (", out, (token :: st).reverse)])
  else if token = ")" then
    popForParen out st pasos
  else if token = "|" ∨ token = "." ∨ token = "*" ∨ token = "+" ∨ token = "?" then
    let r := popOperators (precedence token) out st pasos
    (r.1, token :: r.2.1, r.2.2 ++ [("push op " ++ token, r.1, (token :: r.2.1).reverse)])
  else
    (out, st, pasos ++ [("ignore " ++ token, out, st.reverse)])

/-- The `shunting_yard` token loop followed by the final pop loop. -/
def syRun (isOp : String → Bool) :
    List String → List String × List String × List Paso → List String × List Paso
  | [], acc => popEnd acc.1 acc.2.1 acc.2.2
  | t :: ts, acc => syRun isOp ts (syStep isOp acc t)

/-- Embeds `shunting_yard` of `shunting_yard_regex.py`: returns the postfix output
and the `pasos` trace. -/
def shunting_yard_regex (tokens : List String) : List String × List Paso :=
  syRun is_operand_regex tokens ([], [], [])

/-- Embeds `shunting_yard` of `shunting_yard_simp.py`: identical loop, operand test
with `'ε'` listed explicitly. -/
def shunting_yard_simp (tokens : List String) : List String × List Paso :=
  syRun is_operand_simp tokens ([], [], [])

/-- The `RegexNode` class (identical in both modules): a value and optional
left/right children. -/
inductive RegexNode : Type where
  | node (value : String) (left : Option RegexNode) (right : Option RegexNode)
deriving Repr

/-- The only failure mode of `build_syntax_tree`: Python raises `IndexError`
("pop from empty list") when an operator finds too few operands on the stack,
or when the final pop runs on an empty stack. -/
inductive BuildError : Type where
  | stackUnderflow
deriving Repr, DecidableEq

/-- One iteration of the `build_syntax_tree` loop: a quantifier pops one node
and wraps it as the left child; `.` and `|` pop two nodes (first popped is the
right child, second the left child); any other token is pushed as a leaf.
The node stack is head-first (head is the top). -/
def bstStep (st : List RegexNode) (tok : String) :
    Except BuildError (List RegexNode) :=
  if tok = "*" ∨ tok = "+" ∨ tok = "?" then
    match st with
    | child :: rest => .ok (RegexNode.node tok (some child) none :: rest)
    | [] => .error .stackUnderflow
  else if tok = "." ∨ tok = "|" then
    match st with
    | right :: left :: rest =>
      .ok (RegexNode.node tok (some left) (some right) :: rest)
    | _ => .error .stackUnderflow
  else
    .ok (RegexNode.node tok none none :: st)

/-- The `build_syntax_tree` token loop, threading the node stack and
propagating the first failure, as Python's exception does. -/
def bstFold : List String → List RegexNode → Except BuildError (List RegexNode)
  | [], st => .ok st
  | tok :: rest, st =>
    match bstStep st tok with
    | .error e => .error e
    | .ok st2 => bstFold rest st2

/-- Embeds `build_syntax_tree` (identical in both modules): run the loop, then
`return stack.pop()` — the stack's top is returned whatever the remaining
stack size; an empty final stack raises (IndexError). -/
def buildSyntaxTree (ts : List String) : Except BuildError RegexNode :=
  match bstFold ts [] with
  | .error e => .error e
  | .ok [] => .error .stackUnderflow
  | .ok (root :: _) => .ok root

/-- The arity of each token in `build_syntax_tree`: quantifiers pop one node,
`.` and `|` pop two, every other token pops none (it is pushed as a leaf). -/
def arity (tok : String) : Nat :=
  if tok = "*" ∨ tok = "+" ∨ tok = "?" then 1
  else if tok = "." ∨ tok = "|" then 2
  else 0

/-- Pure stack-size simulation of `build_syntax_tree`: `underflows ts size`
holds when, starting from a stack of `size` nodes, some token of `ts` finds
fewer nodes on the stack than its arity requires. -/
def underflows : List String → Nat → Bool
  | [], _ => false
  | tok :: rest, size =>
    if size < arity tok then true
    else underflows rest (size - arity tok + 1)

/-- Embeds `is_escaped` inside `expand_plus_question`: the number of consecutive
backslashes immediately before position `pos` (in the expression of the
current call).  `bsRun expr pos` is the length of the maximal backslash run
ending at `pos - 1`. -/
def bsRun (expr : List Char) : Nat → Nat
  | 0 => 0
  | pos + 1 => if expr.getD pos ' ' = '\\' then bsRun expr pos + 1 else 0

/-- A position is escaped when it is preceded by an odd number of
backslashes. -/
def is_escaped (expr : List Char) (pos : Nat) : Bool :=
  bsRun expr pos % 2 = 1

/-- The inner depth-counting loop of `expand_plus_question`'s group branch:
starting just after an unescaped `(` with `depth = 1`, advance one position per
iteration, adjusting the depth at unescaped parentheses, until the depth
returns to zero or the end of the expression; returns the final cursor.  The
loop advances the cursor by exactly one per iteration, so with
`fuel = expr.length - i` it exhausts exactly when the cursor reaches the end,
matching the Python `while i < n and depth > 0` condition. -/
def scanGroup (expr : List Char) : Nat → Nat → Nat → Nat
  | i, _, 0 => i
  | i, depth, fuel + 1 =>
    if i < expr.length ∧ 0 < depth then
      let c := expr.getD i ' '
      let depth2 :=
        if c = '(' ∧ is_escaped expr i = false then depth + 1
        else if c = ')' ∧ is_escaped expr i = false then depth - 1
        else depth
      scanGroup expr (i + 1) depth2 fuel
    else i

/-- The scanner of `expand_plus_question`, on the character list `expr` with
cursor `i`.  Each step extracts one unit — an escape pair, a parenthesized
group whose interior is recursively expanded, or a single character — and then,
if an unescaped `+` or `?` follows, rewrites `X+` to `XX*` and `X?` to `(X|ε)`.
The fuel only bounds the recursion: every iteration advances the cursor by at
least one and every group descent moves to a strictly shorter list, so
`(n + 1) * (n + 1)` steps, with `n` the top-level length, strictly exceed the
total number of iterations over all nesting levels and the zero-fuel case is
unreachable from `expand_plus_question`. -/
def expandGo : Nat → List Char → Nat → List Char
  | 0, _, _ => []
  | fuel + 1, expr, i =>
    if i < expr.length then
      let c := expr.getD i ' '
      let unit_next : List Char × Nat :=
        if c = '\\' ∧ i + 1 < expr.length then
          ([c, expr.getD (i + 1) ' '], i + 2)
        else if c = '(' ∧ is_escaped expr i = false then
          let j := scanGroup expr (i + 1) 1 (expr.length - (i + 1))
          let inner := (expr.drop (i + 1)).take (j - (i + 1) - 1)
          (['('] ++ expandGo fuel inner 0 ++ [')'], j)
        else
          ([c], i + 1)
      let token := unit_next.1
      let i2 := unit_next.2
      if i2 < expr.length ∧ is_escaped expr i2 = false ∧
         (expr.getD i2 ' ' = '+' ∨ expr.getD i2 ' ' = '?') then
        if expr.getD i2 ' ' = '+' then
          token ++ token ++ ['*'] ++ expandGo fuel expr (i2 + 1)
        else
          ['('] ++ token ++ ['|', 'ε', ')'] ++ expandGo fuel expr (i2 + 1)
      else
        token ++ expandGo fuel expr i2
    else []

/-- Embeds `expand_plus_question` of `shunting_yard_simp.py`. -/
def expand_plus_question (s : String) : String :=
  String.mk (expandGo ((s.data.length + 1) * (s.data.length + 1)) s.data 0)

/-- Formalization of "the string contains a `+` or `?` occurring as a postfix
operator after a unit": scanning the string with the expander's own unit
grammar (escape pair, parenthesized group, single character), some unit — at
any nesting level — is immediately followed by an unescaped `+` or `?`. -/
def hasPQGo : Nat → List Char → Nat → Bool
  | 0, _, _ => false
  | fuel + 1, expr, i =>
    if i < expr.length then
      let c := expr.getD i ' '
      let found_next : Bool × Nat :=
        if c = '\\' ∧ i + 1 < expr.length then (false, i + 2)
        else if c = '(' ∧ is_escaped expr i = false then
          let j := scanGroup expr (i + 1) 1 (expr.length - (i + 1))
          let inner := (expr.drop (i + 1)).take (j - (i + 1) - 1)
          (hasPQGo fuel inner 0, j)
        else (false, i + 1)
      if found_next.2 < expr.length ∧ is_escaped expr found_next.2 = false ∧
         (expr.getD found_next.2 ' ' = '+' ∨ expr.getD found_next.2 ' ' = '?') then
        true
      else
        found_next.1 || hasPQGo fuel expr found_next.2
    else false

/-- Whether a string still contains a `+` or `?` in postfix position after a
unit, per the expander's unit grammar. -/
def has_postfix_quantifier (s : String) : Bool :=
  hasPQGo ((s.data.length + 1) * (s.data.length + 1)) s.data 0


/-! ### Helper lemmas -/

/-- The first component of the final pop loop is the output followed by the
entire remaining stack, top first — nothing on the stack is filtered out. -/
theorem popEnd_fst : ∀ (st out : List String) (pasos : List Paso),
    (popEnd out st pasos).1 = out ++ st
  | [], out, pasos => by simp [popEnd]
  | top :: rest, out, pasos => by
    rw [popEnd, popEnd_fst rest (out ++ [top])]
    simp

/-- The tokenizer loses no character: concatenating the tokens' characters
restores the input. -/
theorem tokenize_join : ∀ l : List Char, joinTokens (tokenize l) = l
  | [] => rfl
  | [c] => rfl
  | c :: d :: rest => by
    by_cases h : c = '\\'
    · simp [tokenize, h, joinTokens, tokenize_join rest]
    · simp [tokenize, h, joinTokens, tokenize_join (d :: rest)]

/-- The two operand tests agree on every token: they differ only in the
explicit `'ε'` alternative, and `'ε'` already passes `pyIsAlnum`. -/
theorem is_operand_agree (t : String) : is_operand_regex t = is_operand_simp t := by
  obtain ⟨data⟩ := t
  match data with
  | [] => rfl
  | [c] =>
    by_cases hc : c = 'ε'
    · subst hc
      simp [is_operand_regex, is_operand_simp, pyIsAlnum]
    · simp [is_operand_regex, is_operand_simp, hc]
  | a :: b :: rest => rfl

/-- A tree-builder step on a stack smaller than the token's arity fails. -/
theorem bstStep_underflow (st : List RegexNode) (tok : String)
    (h : st.length < arity tok) : bstStep st tok = .error .stackUnderflow := by
  by_cases h1 : tok = "*" ∨ tok = "+" ∨ tok = "?"
  · match st with
    | [] => simp [bstStep, h1]
    | c :: rest => simp [arity, h1] at h
  · by_cases h2 : tok = "." ∨ tok = "|"
    · match st with
      | [] => simp [bstStep, h1, h2]
      | [x] => simp [bstStep, h1, h2]
      | r :: l :: rest => simp [arity, h1, h2] at h; omega
    · simp [arity, h1, h2] at h

/-- A tree-builder step on a stack at least as large as the token's arity
succeeds and changes the stack size by `1 - arity`. -/
theorem bstStep_ok (st : List RegexNode) (tok : String)
    (h : ¬ st.length < arity tok) :
    ∃ st2, bstStep st tok = .ok st2 ∧ st2.length = st.length - arity tok + 1 := by
  by_cases h1 : tok = "*" ∨ tok = "+" ∨ tok = "?"
  · match st with
    | [] => simp [arity, h1] at h
    | c :: rest =>
      refine ⟨RegexNode.node tok (some c) none :: rest, by simp [bstStep, h1], ?_⟩
      simp [arity, h1]
  · by_cases h2 : tok = "." ∨ tok = "|"
    · match st with
      | [] => simp [arity, h1, h2] at h
      | [x] => simp [arity, h1, h2] at h
      | r :: l :: rest =>
        refine ⟨RegexNode.node tok (some l) (some r) :: rest,
          by simp [bstStep, h1, h2], ?_⟩
        simp [arity, h1, h2]
    · refine ⟨RegexNode.node tok none none :: st, by simp [bstStep, h1, h2], ?_⟩
      simp [arity, h1, h2]

/-- When the stack-size simulation reports an underflow, the tree-builder loop
fails with the underflow error. -/
theorem bstFold_underflow : ∀ (ts : List String) (st : List RegexNode),
    underflows ts st.length = true → bstFold ts st = .error .stackUnderflow
  | [], st, h => by simp [underflows] at h
  | tok :: rest, st, h => by
    rw [underflows] at h
    by_cases hc : st.length < arity tok
    · rw [bstFold, bstStep_underflow st tok hc]
    · rw [if_neg hc] at h
      obtain ⟨st2, hok, hlen⟩ := bstStep_ok st tok hc
      rw [bstFold, hok]
      exact bstFold_underflow rest st2 (by rw [hlen]; exact h)

/-! ### Claims -/

/-- C1 (counterexample): the claim that an unmatched `(` left on the operator
stack is silently dropped without being emitted is false.  For the input
`(a|b` the converter emits the `(` into the postfix output, and the full
pipeline then returns the bare leaf `(` — not an AST equivalent to `a|b`
(root `|` with leaf children `a` and `b`). -/
theorem c1_counterexample :
    (shunting_yard_regex (insert_concatenation "(a|b")).1 = ["a", "b", "|", "("]
    ∧ buildSyntaxTree (shunting_yard_regex (insert_concatenation "(a|b")).1
        = .ok (RegexNode.node "(" none none)
    ∧ RegexNode.node "(" none none ≠
        RegexNode.node "|" (some (RegexNode.node "a" none none))
          (some (RegexNode.node "b" none none)) :=
  ⟨by decide, rfl, by
    intro h
    injection h with hv hl hr
    exact absurd hv (by decide)⟩

/-- C1 (amended): after all tokens are consumed, every operator remaining on
the stack — including any unmatched `(` — is popped and appended to the
postfix output; for the input `(a|b` the postfix is `a b | (` and the tree
builder then returns the single leaf node `(`, discarding the `a|b`
subtree. -/
theorem c1_final_pop_emits_lparen :
    (∀ (out st : List String) (pasos : List Paso), (popEnd out st pasos).1 = out ++ st)
    ∧ (shunting_yard_regex (insert_concatenation "(a|b")).1 = ["a", "b", "|", "("]
    ∧ buildSyntaxTree (shunting_yard_regex (insert_concatenation "(a|b")).1
        = .ok (RegexNode.node "(" none none) :=
  ⟨fun out st pasos => popEnd_fst st out pasos, by decide, rfl⟩

/-- C2 (counterexample): the claim that `build_syntax_tree` fails with a
MalformedTree condition when more than one node remains is false: for the
postfix sequence `a b` two leaves remain on the stack and the function
returns the node `b` instead of failing. -/
theorem c2_counterexample :
    buildSyntaxTree ["a", "b"] = .ok (RegexNode.node "b" none none) := rfl

/-- C2 (amended): when the loop of `build_syntax_tree` ends with one or more
nodes on the stack, the function returns the most recently pushed node and
silently discards the others; no MalformedTree check exists. -/
theorem c2_returns_top_of_stack :
    ∀ (ts : List String) (x : RegexNode) (rest : List RegexNode),
      bstFold ts [] = .ok (x :: rest) → buildSyntaxTree ts = .ok x := by
  intro ts x rest h
  simp [buildSyntaxTree, h]

/-- C2 (witness): for the postfix sequence `a b c` three leaves remain and the
builder returns the leaf `c`. -/
theorem c2_witness :
    buildSyntaxTree ["a", "b", "c"] = .ok (RegexNode.node "c" none none) :=
  c2_returns_top_of_stack ["a", "b", "c"] (RegexNode.node "c" none none)
    [RegexNode.node "b" none none, RegexNode.node "a" none none] rfl

/-- C3 (counterexample): concatenation insertion is not idempotent: re-running
the inserter on `a.b` inserts two further `.` tokens instead of leaving
`['a','.','b']` unchanged, because `.` is excluded neither as the left nor as
the right token of the adjacency test. -/
theorem c3_counterexample :
    insert_concatenation "a.b" = ["a", ".", ".", ".", "b"]
    ∧ insert_concatenation "a.b" ≠ ["a", ".", "b"] := by decide

/-- C3 (amended): an explicit `.` token does trigger insertion on its own
right-hand side: after any previous token other than `|` and `(`, a `.` token
receives another `.` before it, so re-running the inserter on `a.b` yields
`['a','.','.','.','b']`. -/
theorem c3_dot_triggers_insertion :
    (∀ (prev : String) (rest : List String), prev ≠ "|" → prev ≠ "(" →
      insertDots prev ("." :: rest) = "." :: "." :: insertDots "." rest)
    ∧ insert_concatenation "a.b" = ["a", ".", ".", ".", "b"] := by
  constructor
  · intro prev rest h1 h2
    rw [insertDots, if_pos (And.intro (And.intro h1 h2) (by decide))]
  · decide

/-- C3 (witness): instantiating the amended statement at `prev = "a"`,
`rest = ["b"]`. -/
theorem c3_witness :
    insertDots "a" [".", "b"] = "." :: "." :: insertDots "." ["b"] :=
  c3_dot_triggers_insertion.1 "a" ["b"] (by decide) (by decide)

/-- C4: whenever some token of a postfix sequence finds fewer nodes on the
builder's stack than its arity requires (as reported by the pure stack-size
simulation `underflows`), `build_syntax_tree` surfaces the hard underflow
failure (Python's `IndexError` on `pop`) and returns no tree. -/
theorem c4_underflow_surfaced : ∀ ts : List String,
    underflows ts 0 = true → buildSyntaxTree ts = .error .stackUnderflow := by
  intro ts h
  have hf := bstFold_underflow ts [] (by simpa using h)
  simp [buildSyntaxTree, hf]

/-- C4 (witness): the postfix sequence `a * .` underflows (the `.` finds only
one operand) and the builder fails hard. -/
theorem c4_witness :
    underflows ["a", "*", "."] 0 = true
    ∧ buildSyntaxTree ["a", "*", "."] = .error .stackUnderflow :=
  ⟨rfl, c4_underflow_surfaced ["a", "*", "."] rfl⟩

/-- C5: for `a|bc*` the inserter yields `a | b . c *`, the converter maps that
to the postfix `a b c * . |`, and the precedence function realizes the strict
total order quantifiers (3) > concatenation (2) > alternation (1). -/
theorem c5_precedence_law :
    insert_concatenation "a|bc*" = ["a", "|", "b", ".", "c", "*"]
    ∧ (shunting_yard_regex ["a", "|", "b", ".", "c", "*"]).1
        = ["a", "b", "c", "*", ".", "|"]
    ∧ precedence "*" = 3 ∧ precedence "+" = 3 ∧ precedence "?" = 3
    ∧ precedence "." = 2 ∧ precedence "|" = 1
    ∧ precedence "|" < precedence "." ∧ precedence "." < precedence "*" := by
  decide

/-- C6: for `(a|b)c` the inserter yields `( a | b ) . c` and the converter
maps that to the postfix `a b | c .` — the explicit group overrides the
default precedence of concatenation over alternation. -/
theorem c6_grouping_overrides :
    insert_concatenation "(a|b)c" = ["(", "a", "|", "b", ")", ".", "c"]
    ∧ (shunting_yard_regex ["(", "a", "|", "b", ")", ".", "c"]).1
        = ["a", "b", "|", "c", "."] := by
  decide

/-- C7 (counterexample): the claim that the expander's output never contains a
`+` or `?` in postfix position after a unit is false: for the input `a++` the
output is `aa*+`, in which the final `+` immediately follows the unit `*`. -/
theorem c7_counterexample :
    expand_plus_question "a++" = "aa*+"
    ∧ has_postfix_quantifier (expand_plus_question "a++") = true := by decide

/-- C7 (amended): the expander maps `a+` to `aa*`, `a?` to `(a|ε)` and
`(ab)+` to `(ab)(ab)*` (the interior `ab` recursively expanded but
unchanged); however, for stacked quantifiers its output can retain a `+` or
`?` in postfix position after a unit, e.g. `a++` expands to `aa*+`. -/
theorem c7_expansion_identities :
    expand_plus_question "a+" = "aa*"
    ∧ expand_plus_question "a?" = "(a|ε)"
    ∧ expand_plus_question "(ab)+" = "(ab)(ab)*"
    ∧ expand_plus_question "a++" = "aa*+" := by decide

/-- C8: a unary operator wraps its single popped node as the left child; a
binary operator takes the first-popped node as right child and the
second-popped node as left child, preserving left-to-right source order; and
for the postfix `a b . c |` the built AST is `|` with left child `.` (leaves
`a`, `b`) and right leaf `c`. -/
theorem c8_child_order :
    (∀ (tok : String) (child : RegexNode) (rest : List RegexNode),
      tok = "*" ∨ tok = "+" ∨ tok = "?" →
      bstStep (child :: rest) tok = .ok (RegexNode.node tok (some child) none :: rest))
    ∧ (∀ (tok : String) (r l : RegexNode) (rest : List RegexNode),
      tok = "." ∨ tok = "|" →
      bstStep (r :: l :: rest) tok = .ok (RegexNode.node tok (some l) (some r) :: rest))
    ∧ buildSyntaxTree ["a", "b", ".", "c", "|"]
        = .ok (RegexNode.node "|"
            (some (RegexNode.node "."
              (some (RegexNode.node "a" none none))
              (some (RegexNode.node "b" none none))))
            (some (RegexNode.node "c" none none))) := by
  refine ⟨?_, ?_, rfl⟩
  · intro tok child rest h
    rw [bstStep, if_pos h]
  · intro tok r l rest h
    have hq : ¬ (tok = "*" ∨ tok = "+" ∨ tok = "?") := by
      rcases h with h | h <;> subst h <;> decide
    rw [bstStep, if_neg hq, if_pos h]

/-- C8 (witness): instantiating both step statements at concrete tokens and
stacks: `*` wraps the leaf `a`; `.` pops the leaf `b` first (right child) and
the leaf `a` second (left child). -/
theorem c8_witness :
    bstStep [RegexNode.node "a" none none] "*"
        = .ok [RegexNode.node "*" (some (RegexNode.node "a" none none)) none]
    ∧ bstStep [RegexNode.node "b" none none, RegexNode.node "a" none none] "."
        = .ok [RegexNode.node "." (some (RegexNode.node "a" none none))
            (some (RegexNode.node "b" none none))] :=
  ⟨c8_child_order.1 "*" (RegexNode.node "a" none none) [] (Or.inl rfl),
   c8_child_order.2.1 "." (RegexNode.node "b" none none)
     (RegexNode.node "a" none none) [] (Or.inl rfl)⟩

/-- C9 (counterexample): the claim that a trailing unescaped `\` is dropped
silently (producing no token) is false: on the input consisting of a single
backslash the tokenizer emits that backslash as a one-character token. -/
theorem c9_counterexample :
    tokenize "\\".data = ["\\"] ∧ (["\\"] : List String) ≠ [] := by decide

/-- C9 (amended): the tokenizer terminates on every input (it is a total
function) and drops nothing: concatenating the emitted tokens' characters
restores the input exactly; in particular a trailing unescaped `\` is emitted
as its own one-character token, as on the input `a\`. -/
theorem c9_tokenizer_total_lossless :
    (∀ l : List Char, joinTokens (tokenize l) = l)
    ∧ tokenize "a\\".data = ["a", "\\"] :=
  ⟨tokenize_join, by decide⟩

/-- C10: the `'ε'` character satisfies the Python `isalnum` operand check, the
two modules' operand tests are extensionally equal, and the two
`shunting_yard` functions return identical results — the same postfix output
and the same trace — on every token sequence. -/
theorem c10_variants_agree :
    pyIsAlnum 'ε' = true
    ∧ (∀ t : String, is_operand_regex t = is_operand_simp t)
    ∧ ∀ tokens : List String, shunting_yard_regex tokens = shunting_yard_simp tokens := by
  refine ⟨by decide, is_operand_agree, fun tokens => ?_⟩
  have h : is_operand_regex = is_operand_simp := funext is_operand_agree
  unfold shunting_yard_regex shunting_yard_simp
  rw [h]
